import Mathlib

/-!
Verification development for the TrendyFetch scraping/export server.

The definitions below are a shallow embedding of the TypeScript sources:
`server/category-mapping.ts`, `server/errors.ts`, `server/storage.ts`,
`shared/schema.ts` and the routes module (scrapers, `/api/scrape` handler,
`exportToShopify`).  DOM documents are embedded as records holding, for each
CSS selector / JSON-LD access the code performs, the data that query would
return; JavaScript string operations are modelled explicitly on `List Char`;
JavaScript number arithmetic is modelled exactly as binary64 over unnormalized
nonnegative fractions.
-/

namespace TrendyFetch

/-! ## JavaScript string primitives -/

/-- Whitespace recognised by the model of `String.prototype.trim`
(the inputs in this development contain only ASCII whitespace). -/
def isWsChar (c : Char) : Bool :=
  c == ' ' || c == '\t' || c == '\n' || c == '\r'

/-- Model of `s.trim()` on the character list. -/
def trimList (cs : List Char) : List Char :=
  ((cs.dropWhile isWsChar).reverse.dropWhile isWsChar).reverse

/-- Model of `s.trim()`. -/
def jsTrim (s : String) : String := String.mk (trimList s.data)

/-- Model of `String.prototype.toLowerCase` restricted to the characters that
occur in this code base: ASCII letters plus the Turkish uppercase letters
Ç, Ğ, Ö, Ş, Ü (U+0130 does not occur in the repository's inputs). -/
def jsLowerChar (c : Char) : Char :=
  if 'A' ≤ c ∧ c ≤ 'Z' then Char.ofNat (c.toNat + 32)
  else if c == 'Ç' then 'ç'
  else if c == 'Ğ' then 'ğ'
  else if c == 'Ö' then 'ö'
  else if c == 'Ş' then 'ş'
  else if c == 'Ü' then 'ü'
  else c

/-- Model of `s.toLowerCase()`. -/
def jsLower (s : String) : String := String.mk (s.data.map jsLowerChar)

/-- Model of `String.prototype.toUpperCase` on a single character, restricted
to ASCII letters plus the Turkish lowercase letters occurring here. -/
def jsUpperChar (c : Char) : Char :=
  if 'a' ≤ c ∧ c ≤ 'z' then Char.ofNat (c.toNat - 32)
  else if c == 'ç' then 'Ç'
  else if c == 'ğ' then 'Ğ'
  else if c == 'ö' then 'Ö'
  else if c == 'ş' then 'Ş'
  else if c == 'ü' then 'Ü'
  else if c == 'ı' then 'I'
  else c

/-- `leadsWith pat cs` is true when `pat` occurs at the very start of `cs`. -/
def leadsWith : List Char → List Char → Bool
  | [], _ => true
  | _ :: _, [] => false
  | a :: as, b :: bs => a == b && leadsWith as bs

/-- Substring occurrence on character lists. -/
def hasSubList (pat : List Char) : List Char → Bool
  | [] => pat.isEmpty
  | c :: rest => leadsWith pat (c :: rest) || hasSubList pat rest

/-- Model of `s.includes(pat)`. -/
def containsSub (s pat : String) : Bool := hasSubList pat.data s.data

/-- Model of `s.split(sep)` for a one-character separator. -/
def splitOnChar (sep : Char) (cs : List Char) : List (List Char) :=
  cs.foldr
    (fun c acc =>
      match acc with
      | [] => [[c]]
      | h :: t => if c == sep then [] :: (h :: t) else (c :: h) :: t)
    [[]]

/-- Model of `s.split(sep)` returning strings. -/
def jsSplit (sep : Char) (s : String) : List String :=
  (splitOnChar sep s.data).map String.mk

/-- Remove the first occurrence of `pat`, as `s.replace(pat, "")` does for a
string pattern (which replaces only the first occurrence). -/
def stripFirstOcc (pat : List Char) : List Char → List Char
  | [] => []
  | c :: rest =>
    if leadsWith pat (c :: rest) then (c :: rest).drop pat.length
    else c :: stripFirstOcc pat rest

/-- Model of `s.replace("TL", "")` and friends. -/
def jsReplaceFirst (pat s : String) : String :=
  String.mk (stripFirstOcc pat.data s.data)

/-! ## JavaScript object / map primitives

A JavaScript object used as a string-keyed dictionary preserves insertion
order; assigning to an existing key updates it in place.  We model such
objects (and `Map`) as association lists with exactly that behaviour. -/

/-- Ordered-association-list lookup (`obj[key]`, `undefined` as `none`). -/
def lookupA : List (String × String) → String → Option String
  | [], _ => none
  | (k, v) :: rest, key => if k == key then some v else lookupA rest key

/-- Ordered-association-list assignment (`obj[key] = v`). -/
def setA : List (String × String) → String → String → List (String × String)
  | [], key, v => [(key, v)]
  | (k, w) :: rest, key, v =>
    if k == key then (key, v) :: rest else (k, w) :: setA rest key v

/-- JavaScript truthiness of `obj[key]` (present and non-empty). -/
def truthyAt (m : List (String × String)) (key : String) : Bool :=
  match lookupA m key with
  | some v => v != ""
  | none => false

/-! ## `server/category-mapping.ts` -/

/-- Embedding of the zod `CategoryConfig.variantConfig` object. -/
structure VariantConfig where
  sizeLabel : Option String
  colorLabel : Option String
  materialLabel : Option String
  defaultStock : Nat
  hasVariants : Bool
deriving DecidableEq, Repr

/-- Embedding of the zod `CategoryConfig` object. -/
structure CategoryConfig where
  shopifyCategory : String
  variantConfig : VariantConfig
  attributes : List String
  inventoryTracking : Bool
deriving DecidableEq, Repr

/-- `categoryMapping["erkek"]`. -/
def erkekConfig : CategoryConfig :=
  { shopifyCategory := "Apparel & Accessories > Clothing > Men\x27s Clothing"
    variantConfig :=
      { sizeLabel := some "Beden", colorLabel := some "Renk"
        materialLabel := none, defaultStock := 50, hasVariants := true }
    attributes := ["Kumaş", "Desen", "Yaka Tipi", "Kol Boyu"]
    inventoryTracking := true }

/-- `categoryMapping["kadın"]`. -/
def kadinConfig : CategoryConfig :=
  { shopifyCategory := "Apparel & Accessories > Clothing > Women\x27s Clothing"
    variantConfig :=
      { sizeLabel := some "Beden", colorLabel := some "Renk"
        materialLabel := none, defaultStock := 50, hasVariants := true }
    attributes := ["Kumaş", "Desen", "Yaka Tipi", "Kol Boyu"]
    inventoryTracking := true }

/-- `categoryMapping["tişört"]`. -/
def tisortConfig : CategoryConfig :=
  { shopifyCategory := "Apparel & Accessories > Clothing > Shirts & Tops"
    variantConfig :=
      { sizeLabel := some "Beden", colorLabel := some "Renk"
        materialLabel := none, defaultStock := 50, hasVariants := true }
    attributes := ["Kumaş", "Desen", "Yaka Tipi", "Kol Boyu"]
    inventoryTracking := true }

/-- `categoryMapping["cüzdan"]`. -/
def cuzdanConfig : CategoryConfig :=
  { shopifyCategory :=
      "Apparel & Accessories > Handbags, Wallets & Cases > Wallets & Money Clips"
    variantConfig :=
      { sizeLabel := none, colorLabel := some "Renk"
        materialLabel := some "Materyal", defaultStock := 50, hasVariants := true }
    attributes := ["Malzeme", "Boyut", "Bölme Sayısı", "Kart Bölmesi"]
    inventoryTracking := true }

/-- `categoryMapping["kartlık"]`. -/
def kartlikConfig : CategoryConfig :=
  { shopifyCategory :=
      "Apparel & Accessories > Handbags, Wallets & Cases > Wallets & Money Clips"
    variantConfig :=
      { sizeLabel := none, colorLabel := some "Renk"
        materialLabel := some "Materyal", defaultStock := 50, hasVariants := true }
    attributes := ["Malzeme", "Boyut", "Kart Bölmesi"]
    inventoryTracking := true }

/-- `categoryMapping["sneaker"]`. -/
def sneakerConfig : CategoryConfig :=
  { shopifyCategory := "Apparel & Accessories > Shoes > Athletic Shoes"
    variantConfig :=
      { sizeLabel := some "Numara", colorLabel := some "Renk"
        materialLabel := none, defaultStock := 30, hasVariants := true }
    attributes := ["Taban", "Materyal", "Bağcık", "Kullanım Alanı"]
    inventoryTracking := true }

/-- The exported `categoryMapping` object, in its source insertion order
(which is the order `Object.entries` iterates). -/
def categoryMapping : List (String × CategoryConfig) :=
  [("erkek", erkekConfig), ("kadın", kadinConfig), ("tişört", tisortConfig),
   ("cüzdan", cuzdanConfig), ("kartlık", kartlikConfig), ("sneaker", sneakerConfig)]

/-- The inline default returned when nothing matches. -/
def defaultCategoryConfig : CategoryConfig :=
  { shopifyCategory := "Apparel & Accessories > Clothing"
    variantConfig :=
      { sizeLabel := some "Beden", colorLabel := some "Renk"
        materialLabel := none, defaultStock := 50, hasVariants := true }
    attributes := []
    inventoryTracking := true }

/-- First loop of `getCategoryConfig` (labelled "exact match" in the source,
but its predicate also tests `category.includes(key)`). -/
def catLoop1 (normalized : List String) : Option CategoryConfig :=
  normalized.findSome? fun category =>
    (categoryMapping.find? fun kv =>
      category == kv.1 || containsSub category kv.1).map Prod.snd

/-- Second loop of `getCategoryConfig` (substring containment). -/
def catLoop2 (normalized : List String) : Option CategoryConfig :=
  normalized.findSome? fun category =>
    (categoryMapping.find? fun kv => containsSub category kv.1).map Prod.snd

/-- Embedding of `getCategoryConfig`. -/
def getCategoryConfig (categories : List String) : CategoryConfig :=
  let normalized := categories.map fun c => jsTrim (jsLower c)
  match catLoop1 normalized with
  | some cfg => cfg
  | none =>
    match catLoop2 normalized with
    | some cfg => cfg
    | none =>
      if normalized.any fun c => containsSub c "erkek" then erkekConfig
      else if normalized.any fun c => containsSub c "kadın" then kadinConfig
      else defaultCategoryConfig

/-! ## JavaScript numbers (binary64, nonnegative normal range)

All prices in the code are nonnegative and well inside the normal binary64
range, so doubles are modelled exactly as unnormalized nonnegative fractions
together with a round-to-nearest-ties-even operation with 53 significant
bits.  (Subnormals, overflow and signed zero are outside the modelled range
and never arise for the values in this development.) -/

/-- Unnormalized nonnegative fraction `n / d` (all constructed values have
`d ≠ 0`). -/
structure Frac where
  n : Nat
  d : Nat
deriving DecidableEq, Repr

/-- Exact product of fractions. -/
def fmul (a b : Frac) : Frac := ⟨a.n * b.n, a.d * b.d⟩

/-- Equality of fractions as rational numbers. -/
def feq (a b : Frac) : Bool := a.n * b.d == b.n * a.d

/-- Number of halvings needed to bring `q ≥ 1` below `2`
(this is `⌊log₂ q⌋` for `q ≥ 1`); fuel-driven structural recursion. -/
def natFloorLogAux : Nat → Frac → Nat
  | 0, _ => 0
  | fuel + 1, q =>
    if q.n < 2 * q.d then 0 else natFloorLogAux fuel ⟨q.n, 2 * q.d⟩ + 1

/-- Least `k` with `q * 2^k ≥ 1`, for `0 < q < 1` (so `⌊log₂ q⌋ = -k`). -/
def negExpAux : Nat → Frac → Nat
  | 0, _ => 0
  | fuel + 1, q =>
    if q.d ≤ q.n then 0 else negExpAux fuel ⟨2 * q.n, q.d⟩ + 1

/-- Floor of the base-2 logarithm of a positive fraction. -/
def floorLog2F (q : Frac) : Int :=
  if q.d ≤ q.n then (natFloorLogAux 4096 q : Int) else -(negExpAux 4096 q : Int)

/-- The fraction `q / 2^e`. -/
def scaleDown (q : Frac) (e : Int) : Frac :=
  if 0 ≤ e then ⟨q.n, q.d * 2 ^ e.toNat⟩ else ⟨q.n * 2 ^ (-e).toNat, q.d⟩

/-- The fraction `m * 2^e`. -/
def mkPow2 (m : Nat) (e : Int) : Frac :=
  if 0 ≤ e then ⟨m * 2 ^ e.toNat, 1⟩ else ⟨m, 2 ^ (-e).toNat⟩

/-- Nearest natural number, ties to even. -/
def roundHalfEvenN (q : Frac) : Nat :=
  let k := q.n / q.d
  let r := q.n % q.d
  if 2 * r < q.d then k
  else if q.d < 2 * r then k + 1
  else if k % 2 == 0 then k else k + 1

/-- Round a nonnegative rational to the nearest binary64 value
(53-bit significand, ties to even; normal range). -/
def roundDouble (q : Frac) : Frac :=
  if q.n == 0 then ⟨0, 1⟩
  else
    let e : Int := floorLog2F q - 52
    mkPow2 (roundHalfEvenN (scaleDown q e)) e

/-- Binary64 multiplication of two doubles (exact product, then one rounding,
as IEEE 754 specifies). -/
def dmul (a b : Frac) : Frac := roundDouble (fmul a b)

/-- The binary64 value of the literal `1.15` in the source. -/
def d115 : Frac := roundDouble ⟨115, 100⟩

/-- Digit character. -/
def digitChar (n : Nat) : Char := Char.ofNat (48 + n % 10)

/-- Decimal digits of a natural number (fuel-driven). -/
def natDigitsAux : Nat → Nat → List Char
  | 0, _ => []
  | fuel + 1, n =>
    if n < 10 then [digitChar n] else natDigitsAux fuel (n / 10) ++ [digitChar (n % 10)]

/-- Decimal rendering of a natural number. -/
def natToStr (n : Nat) : String := String.mk (natDigitsAux (n + 1) n)

/-- Two-digit zero-padded rendering. -/
def pad2 (n : Nat) : String := String.mk [digitChar (n / 10 % 10), digitChar n]

/-- Model of `x.toFixed(2)` for a nonnegative value `x` (ECMA-262: the integer
`n` with `n/100` closest to `x`, larger `n` on ties, i.e. `⌊100x + 1/2⌋`). -/
def toFixed2 (q : Frac) : String :=
  let cents := (200 * q.n + q.d) / (2 * q.d)
  natToStr (cents / 100) ++ "." ++ pad2 (cents % 100)

/-- Run of decimal digits: accumulated value, digit count, remainder. -/
def takeDigitsAux (acc cnt : Nat) : List Char → Nat × Nat × List Char
  | [] => (acc, cnt, [])
  | c :: rest =>
    if '0' ≤ c ∧ c ≤ '9' then takeDigitsAux (10 * acc + (c.toNat - 48)) (cnt + 1) rest
    else (acc, cnt, c :: rest)

/-- Model of `parseFloat` restricted to the nonnegative decimal literals this
code feeds it (optional leading whitespace, digits, optional fraction; the
longest valid prefix is used; `none` is NaN).  Exponents and signs never occur
in the scraped price strings. -/
def parseDec (s : String) : Option Frac :=
  let cs := s.data.dropWhile isWsChar
  let ipart := takeDigitsAux 0 0 cs
  match ipart.2.2 with
  | '.' :: rest2 =>
    let fpart := takeDigitsAux 0 0 rest2
    if ipart.2.1 == 0 ∧ fpart.2.1 == 0 then none
    else some ⟨ipart.1 * 10 ^ fpart.2.1 + fpart.1, 10 ^ fpart.2.1⟩
  | _ => if ipart.2.1 == 0 then none else some ⟨ipart.1, 1⟩

/-- The price computation `(parseFloat(basePrice) * 1.15).toFixed(2)`:
decimal string to nearest double, binary64 multiply by double `1.15`,
then `toFixed(2)`. -/
def priceFromBase (basePrice : String) : String :=
  match parseDec basePrice with
  | none => "NaN"
  | some q => toFixed2 (dmul (roundDouble q) d115)

/-- What the spec sentence describes: the exact product `basePrice × 1.15`
rounded to 2 decimal places (same rounding rule as `toFixed`), with no
floating-point arithmetic involved. -/
def exactDerived (basePrice : String) : String :=
  match parseDec basePrice with
  | none => "NaN"
  | some q => toFixed2 (fmul q ⟨115, 100⟩)

/-! ## `server/errors.ts` -/

/-- The error values that can reach the route handlers\x27 `catch` blocks:
the three custom error classes, a zod parse error, and plain `Error`s. -/
inductive JsError where
  | scraping (message : String) (status : Nat) (statusText : String)
  | urlValidation (message : String)
  | productData (message : String) (field : String)
  | zod
  | generic (message : String)
deriving DecidableEq, Repr

/-- Is this a `TrendyolScrapingError`? -/
def JsError.isScraping : JsError → Bool
  | .scraping _ _ _ => true
  | _ => false

/-- Embedding of `handleError` (status code and message; the `details`
payload is dropped as no claim mentions it).  `ZodError` matches none of the
three `instanceof` tests and falls through to the generic branch. -/
def handleError : JsError → Nat × String
  | .scraping msg _ _ => (500, "Ürün verisi çekilirken hata oluştu: " ++ msg)
  | .urlValidation msg => (400, msg)
  | .productData msg field => (422, field ++ " alanında hata: " ++ msg)
  | .zod => (500, "Beklenmeyen bir hata oluştu")
  | .generic _ => (500, "Beklenmeyen bir hata oluştu")

/-! ## `scrapePrice` -/

/-- The data `scrapePrice` reads from a document.
`ldScript`: `none` when there is no ld+json script; `some none` when the
first script exists but `JSON.parse` throws; `some (some p)` when it parses,
with `p` the (truthy) `offers.price` rendered by `toString`, or `none` when
absent/falsy.  `prcDsc` / `altPrice`: the full text of the first element
matched by the primary / secondary price selector group, `none` when the
selector matches no element. -/
structure PriceDoc where
  ldScript : Option (Option (Option String))
  prcDsc : Option String
  altPrice : Option String
deriving DecidableEq, Repr

/-- DOM fallback strategies 2 and 3 of `scrapePrice`. -/
def scrapePriceDom (doc : PriceDoc) : Except JsError (String × String) :=
  match doc.prcDsc with
  | some text =>
    let basePrice := jsTrim (jsReplaceFirst "TL" (jsTrim text))
    .ok (priceFromBase basePrice, basePrice)
  | none =>
    match doc.altPrice with
    | some text =>
      let basePrice := jsTrim (jsReplaceFirst "TL" (jsTrim text))
      .ok (priceFromBase basePrice, basePrice)
    | none => .error (.generic "Fiyat bilgisi bulunamadı")

/-- Embedding of `scrapePrice`.  A JSON parse failure in strategy 1 is
rethrown by the function\x27s own `catch`; a parsed script without a truthy
`offers.price` falls through to the DOM strategies. -/
def scrapePrice (doc : PriceDoc) : Except JsError (String × String) :=
  match doc.ldScript with
  | some none => .error (.generic "JSON parse error")
  | some (some (some basePriceRaw)) => .ok (priceFromBase basePriceRaw, basePriceRaw)
  | some (some none) => scrapePriceDom doc
  | none => scrapePriceDom doc

/-! ## `scrapeVariants` -/

/-- The `sizeOrder` table (`sizeOrder[a] || 99`; no key has rank 0, so the
`||` default simply maps unknown sizes to 99). -/
def sizeRank (s : String) : Nat :=
  if s == "XXS" then 1 else if s == "XS" then 2 else if s == "S" then 3
  else if s == "M" then 4 else if s == "L" then 5 else if s == "XL" then 6
  else if s == "2XL" then 7 else if s == "3XL" then 8 else if s == "4XL" then 9
  else if s == "5XL" then 10 else if s == "6XL" then 11 else 99

/-- Insert into a rank-sorted list after all entries of smaller or equal
rank (the unique stable position). -/
def insAfterEq (x : String) : List String → List String
  | [] => [x]
  | y :: ys => if sizeRank y ≤ sizeRank x then y :: insAfterEq x ys else x :: y :: ys

/-- Stable ascending sort by `sizeRank`, the behaviour of JavaScript\x27s
(stable) `Array.prototype.sort` with comparator `sizeOrder[a] - sizeOrder[b]`. -/
def sortByRank (l : List String) : List String :=
  l.foldl (fun acc x => insAfterEq x acc) []

/-- First-occurrence deduplication, the behaviour of `[...new Set(l)]`. -/
def dedupAux (seen : List String) : List String → List String
  | [] => []
  | x :: xs => if seen.contains x then dedupAux seen xs else x :: dedupAux (x :: seen) xs

/-- `[...new Set(l)]`. -/
def dedupFirst (l : List String) : List String := dedupAux [] l

/-- The concatenated-size heuristic:
`size.includes("XS") && size.includes("S") && size.includes("M")`. -/
def isCompositeSz (s : String) : Bool :=
  containsSub s "XS" && containsSub s "S" && containsSub s "M"

/-- The size post-processing pipeline applied to one selector\x27s token list:
the `reduce` dropping composite tokens, then `[...new Set(...)]`, then the
stable sort by `sizeOrder`. -/
def processSizes (foundSizes : List String) : List String :=
  sortByRank (dedupFirst
    (foundSizes.foldl (fun acc size => if isCompositeSz size then acc else acc ++ [size]) []))

/-- The `for (const selector of sizeSelectors)` loop: each entry of `ls` is
the list of `$(el).text().trim()` values one selector yields; `filter(Boolean)`
drops empty texts; the loop `break`s only when the processed list is
non-empty. -/
def sizesScan : List (List String) → List String
  | [] => []
  | l :: rest =>
    let foundSizes := l.filter fun s => s != ""
    if foundSizes.length > 0 then
      let uniqueSizes := processSizes foundSizes
      if uniqueSizes.length > 0 then uniqueSizes else sizesScan rest
    else sizesScan rest

/-- The colour selector loop: first selector with a non-empty filtered text
list wins; colours are deduplicated but never sorted. -/
def colorsScan : List (List String) → List String
  | [] => []
  | l :: rest =>
    let colors := l.filter fun s => s != ""
    if colors.length > 0 then dedupFirst colors else colorsScan rest

/-- The `variants` record. -/
structure Variants where
  sizes : List String
  colors : List String
deriving DecidableEq, Repr

/-- One entry of `schema.hasVariant` (`size` / `color` fields, `none` when
absent). -/
structure HasVariantEntry where
  size : Option String
  color : Option String
deriving DecidableEq, Repr

/-- The `schema.hasVariant` supplement: append each truthy size/colour not
already present. -/
def applyHasVariant (vs : Variants) (entries : List HasVariantEntry) : Variants :=
  entries.foldl
    (fun acc e =>
      let sizes1 :=
        match e.size with
        | some s => if s != "" && !(acc.sizes.contains s) then acc.sizes ++ [s] else acc.sizes
        | none => acc.sizes
      let colors1 :=
        match e.color with
        | some c => if c != "" && !(acc.colors.contains c) then acc.colors ++ [c] else acc.colors
        | none => acc.colors
      ⟨sizes1, colors1⟩)
    vs

/-- Embedding of `scrapeVariants`: `sizeSel` / `colorSel` hold, per CSS
selector in source order, the trimmed texts of the matched elements. -/
def scrapeVariants (sizeSel colorSel : List (List String))
    (hasVariant : List HasVariantEntry) : Variants :=
  applyHasVariant ⟨sizesScan sizeSel, colorsScan colorSel⟩ hasVariant

/-! ## `scrapeProductAttributes` -/

/-- One element matched by the six generic attribute selectors, by which of
the three label/value extraction branches applies to it: it has
`.detail-attr-label`/`.property-label` children, or `th`/`td` children, or
neither (plain text split on a colon). -/
inductive AttrElem where
  | labeled (label value : String)
  | cells (label value : String)
  | plain (text : String)
deriving DecidableEq, Repr

/-- The data `scrapeProductAttributes` reads from a document.
`ldProps`: per ld+json script, its `additionalProperty` entries as
`(name, unitText)` (scripts that fail to parse or have no such field
contribute an empty list).  `containers`: per `.detail-attr-container`, its
`(th, td)` row texts.  `selectorElems`: per generic selector, its matched
elements.  `specialVals`: for each alternate label, the
`.detail-attr-value`/`.property-value` texts of the elements its selector
matches.  `groups`: per `.featured-attributes-group`, its item
`(label, value)` texts. -/
structure AttrDoc where
  ldProps : List (List (String × String))
  containers : List (List (String × String))
  selectorElems : List (List AttrElem)
  specialVals : List (String × List String)
  groups : List (List (String × String))
deriving DecidableEq, Repr

/-- Strategy 1: schema.org `additionalProperty` entries (unconditional
assignment). -/
def attrStrat1 (attrs : List (String × String))
    (ldProps : List (List (String × String))) : List (String × String) :=
  ldProps.foldl
    (fun acc props =>
      props.foldl
        (fun acc p => if p.1 != "" && p.2 != "" then setA acc p.1 p.2 else acc)
        acc)
    attrs

/-- Strategy 2: `.detail-attr-container` table rows (unconditional
assignment). -/
def attrStrat2 (attrs : List (String × String))
    (containers : List (List (String × String))) : List (String × String) :=
  containers.foldl
    (fun acc rows =>
      rows.foldl
        (fun acc row => if row.1 != "" && row.2 != "" then setA acc row.1 row.2 else acc)
        acc)
    attrs

/-- The label/value pair an element yields (the `plain` branch destructures
`text.split(":").map(trim)`, whose second component may be `undefined`). -/
def elemLabelValue : AttrElem → String × Option String
  | .labeled l v => (l, some v)
  | .cells l v => (l, some v)
  | .plain t =>
    let parts := (jsSplit ':' t).map jsTrim
    (parts.getD 0 "", parts.get? 1)

/-- Strategy 3: the six generic selectors; assignment guarded by
`label && value && !attributes[label]`. -/
def attrStrat3 (attrs : List (String × String))
    (sels : List (List AttrElem)) : List (String × String) :=
  sels.foldl
    (fun acc elems =>
      elems.foldl
        (fun acc e =>
          let lv := elemLabelValue e
          match lv.2 with
          | some v =>
            if lv.1 != "" && v != "" && !(truthyAt acc lv.1) then setA acc lv.1 v else acc
          | none => acc)
        acc)
    attrs

/-- The `specialAttributes` table, in source order. -/
def specialAttributes : List (String × List String) :=
  [("Materyal", ["Materyal", "Kumaş", "Material"]),
   ("Parça Sayısı", ["Parça Sayısı", "Adet"]),
   ("Renk", ["Renk", "Color"]),
   ("Desen", ["Desen", "Pattern"]),
   ("Yıkama Talimatı", ["Yıkama Talimatı", "Yıkama"]),
   ("Menşei", ["Menşei", "Üretim Yeri", "Origin"])]

/-- Values the document yields for one alternate label\x27s selector. -/
def lookupVals (sv : List (String × List String)) (alt : String) : List String :=
  match sv.find? fun kv => kv.1 == alt with
  | some kv => kv.2
  | none => []

/-- Strategy 4: targeted canonical-name lookups; the `!attributes[key]` guard
is evaluated once, before the alternate-label loop. -/
def attrStrat4 (attrs : List (String × String))
    (sv : List (String × List String)) : List (String × String) :=
  specialAttributes.foldl
    (fun acc kv =>
      if truthyAt acc kv.1 then acc
      else
        kv.2.foldl
          (fun acc alt =>
            (lookupVals sv alt).foldl
              (fun acc v => if v != "" then setA acc kv.1 v else acc)
              acc)
          acc)
    attrs

/-- Strategy 5: `.featured-attributes-group` items (unconditional
assignment). -/
def attrStrat5 (attrs : List (String × String))
    (groups : List (List (String × String))) : List (String × String) :=
  groups.foldl
    (fun acc items =>
      items.foldl
        (fun acc it => if it.1 != "" && it.2 != "" then setA acc it.1 it.2 else acc)
        acc)
    attrs

/-- Embedding of `scrapeProductAttributes` (the five strategies in source
order; the surrounding `try`/`catch` only affects thrown exceptions, which
the pure model cannot raise). -/
def scrapeProductAttributes (d : AttrDoc) : List (String × String) :=
  attrStrat5
    (attrStrat4 (attrStrat3 (attrStrat2 (attrStrat1 [] d.ldProps) d.containers)
      d.selectorElems) d.specialVals)
    d.groups

/-! ## `scrapeTrendyolCategories` -/

/-- The data `scrapeTrendyolCategories` reads from a document.
`ldBreadcrumbs`: per ld+json script, the mapped breadcrumb names
(`item.name || item.item?.name`, the empty string when both are absent;
scripts without a breadcrumb or failing to parse contribute `[]`).
The remaining fields are the trimmed texts of the respective selectors,
the empty string / `[]` when nothing matches. -/
structure CatDoc where
  ldBreadcrumbs : List (List String)
  breadcrumbDom : List String
  brand : String
  mainCategory : String
  detailSpans : List String
  productTitle : String
  typeText : String
  h1Title : String
deriving DecidableEq, Repr

/-- Step 1: schema.org breadcrumbs; every script is visited, each non-empty
filtered list overwriting the previous result. -/
def catStep1 (scripts : List (List String)) : List String :=
  scripts.foldl
    (fun cats names =>
      let breadcrumbs := names.filter fun n => n != "" && n != "Trendyol"
      if breadcrumbs.length > 0 then breadcrumbs else cats)
    []

/-- Step 2: breadcrumb DOM elements, filtered. -/
def catStep2 (dom : List String) : List String :=
  dom.filter fun cat => cat != ">" && cat != "/" && cat != "Trendyol" && cat.length > 0

/-- Step 3: brand, main category, then detail spans (spans deduplicated
against everything pushed so far). -/
def catStep3 (d : CatDoc) : List String :=
  let dc1 : List String := if d.brand != "" then [d.brand] else []
  let dc2 := if d.mainCategory != "" then dc1 ++ [d.mainCategory] else dc1
  d.detailSpans.foldl
    (fun acc category =>
      if category != "" && !(acc.contains category) then acc ++ [category] else acc)
    dc2

/-- The gender keyword alternation of the regex
`/(erkek|kadın|unisex|çocuk)/i`, in source order. -/
def genderKeywords : List String := ["erkek", "kadın", "unisex", "çocuk"]

/-- Case-insensitive match of `kw` at the start of `cs` (ASCII/Turkish case
folding as in `jsLowerChar`). -/
def matchKwAt (kw cs : List Char) : Bool :=
  leadsWith (kw.map jsLowerChar) (cs.map jsLowerChar)

/-- First (leftmost) match of the gender regex, returning the matched
substring in its original case; at equal positions the alternation order
decides. -/
def findGenderAux : List Char → Option String
  | [] => none
  | c :: rest =>
    match genderKeywords.find? fun kw => matchKwAt kw.data (c :: rest) with
    | some kw => some (String.mk ((c :: rest).take kw.data.length))
    | none => findGenderAux rest

/-- `gender.charAt(0).toUpperCase() + gender.slice(1)`. -/
def capitalizeFirst (s : String) : String :=
  match s.data with
  | [] => ""
  | c :: rest => String.mk (jsUpperChar c :: rest)

/-- The `productTypes` table. -/
def productTypes : List String := ["Giyim", "Spor", "Ayakkabı", "Aksesuar"]

/-- Step 4: gender/type inference from the title. -/
def catStep4 (d : CatDoc) : List String :=
  let gender := findGenderAux d.productTitle.data
  if gender.isSome || d.typeText != "" then
    let p1 : List String :=
      match gender with
      | some g => [capitalizeFirst g]
      | none => []
    let p2 := if d.typeText != "" then p1 ++ [d.typeText] else p1
    productTypes.foldl
      (fun acc pType =>
        if containsSub (jsLower d.productTitle) (jsLower pType) && !(acc.contains pType) then
          acc ++ [pType]
        else acc)
      p2
  else []

/-- Step 5: the `h1` title, or the hardcoded default `"Giyim"`. -/
def catStep5 (d : CatDoc) : List String :=
  if d.h1Title != "" then [d.h1Title] else ["Giyim"]

/-- Embedding of `scrapeTrendyolCategories` (never fails; each later step
runs only while `categories` is still empty, steps 3 and 4 assigning only a
non-empty result). -/
def scrapeTrendyolCategories (d : CatDoc) : List String :=
  let c1 := catStep1 d.ldBreadcrumbs
  let c2 := if c1.length == 0 then catStep2 d.breadcrumbDom else c1
  let c3 :=
    if c2.length == 0 then
      let dc := catStep3 d
      if dc.length > 0 then dc else c2
    else c2
  let c4 :=
    if c3.length == 0 then
      let cp := catStep4 d
      if cp.length > 0 then cp else c3
    else c3
  if c4.length == 0 then catStep5 d else c4

/-! ## `shared/schema.ts`, `server/storage.ts` and the `/api/scrape` handler -/

/-- `schema.image?.contentUrl`: a single URL or an array. -/
inductive StrOrList where
  | one (s : String)
  | many (l : List String)
deriving DecidableEq, Repr

/-- The parsed first ld+json block, as the handler reads it.  `hasType` is
the truthiness of `schema["@type"]`; `name` is `schema.name` with the empty
string for a falsy value; option fields are `none` when absent. -/
structure SchemaData where
  hasType : Bool
  name : String
  description : Option String
  brandName : Option String
  manufacturer : Option String
  offersPrice : Option String
  imageContentUrl : Option StrOrList
  hasVariant : List HasVariantEntry
deriving DecidableEq, Repr

/-- Truthiness of an optional string. -/
def truthyO : Option String → Bool
  | some s => s != ""
  | none => false

/-- Everything the handler and the extractors read from a fetched page.
`schemaParse`: `none` when there is no ld+json script, `some none` when the
first one fails to parse, otherwise the parsed data. -/
structure Page where
  schemaParse : Option (Option SchemaData)
  prcDsc : Option String
  altPrice : Option String
  attrDoc : AttrDoc
  catDoc : CatDoc
  sizeSel : List (List String)
  colorSel : List (List String)
  mainImage : Option String
  gallery : List String
deriving DecidableEq, Repr

/-- The handler\x27s image extraction block: structured-data URL(s), DOM
fallback (main image plus deduplicated gallery images), empty result a
`ProductDataError`; the inner `throw` is caught by the block\x27s own `catch`
and replaced with the "Görseller işlenirken hata oluştu" error. -/
def extractImages (sd : SchemaData) (mainImage : Option String)
    (gallery : List String) : Except JsError (List String) :=
  let images0 : List String :=
    match sd.imageContentUrl with
    | some (.one s) => if s != "" then [s] else []
    | some (.many l) => l
    | none => []
  let images1 :=
    if images0.length == 0 then
      let withMain :=
        match mainImage with
        | some src => if src != "" then [src] else []
        | none => []
      gallery.foldl
        (fun acc src => if src != "" && !(acc.contains src) then acc ++ [src] else acc)
        withMain
    else images0
  if images1.length == 0 then .error (.productData "Görseller işlenirken hata oluştu" "images")
  else .ok images1

/-- The record the handler assembles (`InsertProduct`). -/
structure InsertProduct where
  url : String
  title : String
  description : String
  price : String
  basePrice : String
  images : List String
  variants : Variants
  attributes : List (String × String)
  categories : List String
  tags : List String
  brand : String
deriving DecidableEq, Repr

/-- A stored product: the insert record spread together with the assigned
sequential id (`{ ...insertProduct, id }`). -/
structure Product where
  id : Nat
  fields : InsertProduct
deriving DecidableEq, Repr

/-- `MemStorage`: the `Map` keyed by URL plus the id counter (initially 1). -/
structure MemStorage where
  products : List (String × Product)
  currentId : Nat
deriving DecidableEq, Repr

/-- The freshly constructed storage. -/
def MemStorage.init : MemStorage := ⟨[], 1⟩

/-- `Map.get`. -/
def mapGet : List (String × Product) → String → Option Product
  | [], _ => none
  | (k, v) :: rest, key => if k == key then some v else mapGet rest key

/-- `Map.set` (updates in place, otherwise appends). -/
def mapSet : List (String × Product) → String → Product → List (String × Product)
  | [], key, v => [(key, v)]
  | (k, w) :: rest, key, v =>
    if k == key then (key, v) :: rest else (k, w) :: mapSet rest key v

/-- `MemStorage.saveProduct`. -/
def saveProduct (st : MemStorage) (ip : InsertProduct) : MemStorage × Product :=
  let p : Product := ⟨st.currentId, ip⟩
  (⟨mapSet st.products ip.url p, st.currentId + 1⟩, p)

/-- `MemStorage.getProduct`. -/
def getProduct (st : MemStorage) (url : String) : Option Product :=
  mapGet st.products url

/-- The post-fetch part of the handler: schema checks, extraction, record
assembly.  Message details: the inner "Geçersiz ürün şeması" throw is caught
by the surrounding `try` and replaced by "Ürün şeması geçersiz". -/
def assemble (url : String) (pg : Page) : Except JsError InsertProduct :=
  match pg.schemaParse with
  | none => .error (.productData "Ürün şeması bulunamadı" "schema")
  | some none => .error (.productData "Ürün şeması geçersiz" "schema")
  | some (some sd) =>
    if !sd.hasType || sd.name == "" then .error (.productData "Ürün şeması geçersiz" "schema")
    else
      match scrapePrice ⟨some (some sd.offersPrice), pg.prcDsc, pg.altPrice⟩ with
      | .error e => .error e
      | .ok pr =>
        let title := sd.name
        let brand :=
          if truthyO sd.brandName then sd.brandName.getD ""
          else if truthyO sd.manufacturer then sd.manufacturer.getD ""
          else (jsSplit ' ' title).getD 0 ""
        if title == "" || !(truthyO sd.description) || pr.1 == "" then
          .error (.productData "Temel ürün bilgileri eksik" "basicInfo")
        else
          let categories := scrapeTrendyolCategories pg.catDoc
          let attributes := scrapeProductAttributes pg.attrDoc
          match extractImages sd pg.mainImage pg.gallery with
          | .error e => .error e
          | .ok images =>
            let variants := scrapeVariants pg.sizeSel pg.colorSel sd.hasVariant
            .ok { url := url, title := title, description := sd.description.getD ""
                  price := pr.1, basePrice := pr.2, images := images, variants := variants
                  attributes := attributes, categories := categories, tags := categories
                  brand := brand }

/-- The components `new URL(url)` exposes of a parseable URL. -/
structure UrlParts where
  hostname : String
  pathname : String
deriving DecidableEq, Repr

/-- One `/api/scrape` request together with the world it would observe:
the raw URL string, its parse result (`none` when `new URL` throws), and the
fetch outcome for the cache-miss path. -/
structure ScrapeReq where
  urlRaw : String
  parsed : Option UrlParts
  fetchOk : Bool
  fetchStatus : Nat
  fetchStatusText : String
  page : Page
deriving DecidableEq, Repr

/-- The `urlSchema` zod refinement: parseable, host `www.trendyol.com`, and
a product-looking path. -/
def urlSchemaOk : Option UrlParts → Bool
  | none => false
  | some u =>
    u.hostname == "www.trendyol.com" &&
      (containsSub u.pathname "/p-" || containsSub u.pathname "-p-")

/-- The handler\x27s response. -/
inductive ScrapeRes where
  | ok (p : Product)
  | err (status : Nat) (message : String)
deriving DecidableEq, Repr

/-- `res.status(status).json({ message })` built from `handleError`. -/
def respondErr (e : JsError) : ScrapeRes := .err (handleError e).1 (handleError e).2

/-- One execution of the `/api/scrape` handler: resulting storage, response,
and whether the outbound fetch was performed.  Control flow per source:
zod parse, cache lookup, fetch, response check, assembly, save. -/
def scrapeStep (st : MemStorage) (r : ScrapeReq) : MemStorage × ScrapeRes × Bool :=
  if !(urlSchemaOk r.parsed) then (st, respondErr .zod, false)
  else
    match getProduct st r.urlRaw with
    | some existing => (st, .ok existing, false)
    | none =>
      if !r.fetchOk then
        (st, respondErr (.scraping "Ürün sayfası yüklenemedi" r.fetchStatus r.fetchStatusText), true)
      else
        match assemble r.urlRaw r.page with
        | .error e => (st, respondErr e, true)
        | .ok ip =>
          let sp := saveProduct st ip
          (sp.1, .ok sp.2, true)

/-- Run a sequence of scrape requests, threading the storage. -/
def runList (st : MemStorage) : List ScrapeReq → MemStorage
  | [] => st
  | r :: rest => runList (scrapeStep st r).1 rest

/-! ## `exportToShopify` -/

/-- Lowercase ASCII letter or digit. -/
def isLowAlnum (c : Char) : Bool :=
  ('a' ≤ c ∧ c ≤ 'z') || ('0' ≤ c ∧ c ≤ '9')

/-- Collapse runs of dashes to a single dash (the dash-run regex replace). -/
def collapseDash : List Char → List Char
  | [] => []
  | [c] => [c]
  | c :: d :: rest =>
    if c == '-' && d == '-' then collapseDash (d :: rest) else c :: collapseDash (d :: rest)

/-- Strip leading/trailing dashes (`/^-|-$/g`). -/
def stripDashEnds (cs : List Char) : List Char :=
  ((cs.dropWhile (fun c => c == '-')).reverse.dropWhile (fun c => c == '-')).reverse

/-- The handle: title lowercased, `[^a-z0-9]+` runs replaced by single
dashes (mapping every such character to a dash and collapsing is equivalent
to the run-replacement), dashes collapsed again, edge dashes stripped. -/
def mkHandle (title : String) : String :=
  let dashed := (jsLower title).data.map fun c => if isLowAlnum c then c else '-'
  String.mk (stripDashEnds (collapseDash (collapseDash dashed)))

/-- `s.replace(/"/g, \x27""\x27)`. -/
def dupQuotes (s : String) : String :=
  String.mk (s.data.foldr (fun c acc => if c == '"' then '"' :: '"' :: acc else c :: acc) [])

/-- `list.join(sep)`. -/
def joinSep (sep : String) : List String → String
  | [] => ""
  | [x] => x
  | x :: y :: rest => x ++ sep ++ joinSep sep (y :: rest)

/-- `attributesHtml`: `<strong>key:</strong> value` lines joined by `<br>`
(`Object.entries` iterates the attribute object in insertion order, which is
how the model stores it). -/
def attributesHtml (attrs : List (String × String)) : String :=
  joinSep "<br>" (attrs.map fun kv => "<strong>" ++ kv.1 ++ ":</strong> " ++ kv.2)

/-- The `Body (HTML)` template literal (exact interior whitespace of the
source), with every double quote doubled afterwards. -/
def mkBodyHtml (attrs : List (String × String)) : String :=
  dupQuotes
    ("<div class=\"product-features\">\n        <h3>Ürün Özellikleri</h3>\n        <div class=\"features-list\">\n          "
      ++ attributesHtml attrs ++ "\n        </div>\n      </div>")

/-- The `SEO Description`: `key: value` joined by `". "`, truncated with
`substring(0, 320)` (all characters here are single UTF-16 units), quotes
doubled after truncation. -/
def seoDescription (attrs : List (String × String)) : String :=
  dupQuotes
    (String.mk ((joinSep ". " (attrs.map fun kv => kv.1 ++ ": " ++ kv.2)).data.take 320))

/-- `l[i] || l[0]` as the CSV renders it (absent key / `undefined` become the
empty cell, and `||` takes the fallback exactly when `l[i]` is falsy). -/
def jsIndexOr (l : List String) (i : Nat) : String :=
  let a := l.getD i ""
  if a != "" then a else l.getD 0 ""

/-- One CSV record, one field per column of the fixed 28-column header.  A
key the source object omits is rendered as an empty cell by `csv-writer`, so
omitted fields default to `""`. -/
structure CsvRow where
  title : String := ""
  handle : String := ""
  bodyHtml : String := ""
  vendor : String := ""
  productCategory : String := ""
  prodType : String := ""
  tags : String := ""
  published : String := ""
  status : String := ""
  sku : String := ""
  barcode : String := ""
  option1Name : String := ""
  option1Value : String := ""
  option2Name : String := ""
  option2Value : String := ""
  option3Name : String := ""
  option3Value : String := ""
  price : String := ""
  inventoryPolicy : String := ""
  inventoryQuantity : String := ""
  requiresShipping : String := ""
  weight : String := ""
  weightUnit : String := ""
  imageSrc : String := ""
  imagePosition : String := ""
  imageAlt : String := ""
  variantImage : String := ""
  seoTitle : String := ""
  seoDescr : String := ""
deriving DecidableEq, Repr

/-- The `mainRecord` object (the exporter reads only the insert fields of a
product; the `id` is unused). -/
def mainRow (p : InsertProduct) : CsvRow :=
  let handle := mkHandle p.title
  { title := p.title
    handle := handle
    bodyHtml := mkBodyHtml p.attributes
    vendor := p.brand
    productCategory := "Apparel & Accessories > Clothing"
    prodType := "Clothing"
    tags := joinSep "," p.categories
    published := "TRUE"
    status := "active"
    sku := handle ++ "-1"
    barcode := ""
    option1Name := if p.variants.sizes.length > 0 then "Size" else ""
    option1Value := p.variants.sizes.getD 0 ""
    option2Name := if p.variants.colors.length > 0 then "Color" else ""
    option2Value := p.variants.colors.getD 0 ""
    option3Name := ""
    option3Value := ""
    price := p.price
    inventoryPolicy := "deny"
    inventoryQuantity := "100"
    requiresShipping := "TRUE"
    weight := "500"
    weightUnit := "g"
    imageSrc := p.images.getD 0 ""
    imagePosition := "1"
    imageAlt := p.title
    variantImage := ""
    seoTitle := p.title
    seoDescr := seoDescription p.attributes }

/-- The extra-size record for index `i` (`1 ≤ i < sizes.length` in the
loop); the record carries no Barcode, image or SEO keys. -/
def mkSizeRow (p : InsertProduct) (i : Nat) : CsvRow :=
  let handle := mkHandle p.title
  let main := mainRow p
  { handle := handle
    title := ""
    bodyHtml := main.bodyHtml
    vendor := main.vendor
    productCategory := main.productCategory
    prodType := main.prodType
    tags := main.tags
    published := main.published
    status := main.status
    option1Name := "Size"
    option1Value := p.variants.sizes.getD i ""
    option2Name := main.option2Name
    option2Value := main.option2Value
    option3Name := ""
    option3Value := ""
    sku := handle ++ "-size-" ++ natToStr i
    price := p.price
    inventoryPolicy := "deny"
    inventoryQuantity := "100"
    requiresShipping := "TRUE"
    weight := main.weight
    weightUnit := main.weightUnit }

/-- The extra-colour record for index `i`, with
`variantImage = images[i] || images[0]`. -/
def mkColorRow (p : InsertProduct) (i : Nat) : CsvRow :=
  let handle := mkHandle p.title
  let main := mainRow p
  let variantImage := jsIndexOr p.images i
  { handle := handle
    title := ""
    bodyHtml := main.bodyHtml
    vendor := main.vendor
    productCategory := main.productCategory
    prodType := main.prodType
    tags := main.tags
    published := main.published
    status := main.status
    option1Name := main.option1Name
    option1Value := main.option1Value
    option2Name := "Color"
    option2Value := p.variants.colors.getD i ""
    option3Name := ""
    option3Value := ""
    sku := handle ++ "-color-" ++ natToStr i
    price := p.price
    inventoryPolicy := "deny"
    inventoryQuantity := "100"
    requiresShipping := "TRUE"
    weight := main.weight
    weightUnit := main.weightUnit
    imageSrc := variantImage
    imagePosition := natToStr (i + 1)
    variantImage := variantImage }

/-- Embedding of `exportToShopify`: the main record, then one record per
size beyond the first, then one per colour beyond the first. -/
def exportToShopify (p : InsertProduct) : List CsvRow :=
  let records := [mainRow p]
  let records2 :=
    if p.variants.sizes.length > 0 then
      records ++ ((List.range p.variants.sizes.length).drop 1).map (mkSizeRow p)
    else records
  if p.variants.colors.length > 0 then
    records2 ++ ((List.range p.variants.colors.length).drop 1).map (mkColorRow p)
  else records2

/-! ## Concrete test inputs -/

/-- A page with no ld+json script and nothing matched by any selector. -/
def emptyPage : Page :=
  { schemaParse := none, prcDsc := none, altPrice := none
    attrDoc := ⟨[], [], [], [], []⟩
    catDoc := ⟨[], [], "", "", [], "", "", ""⟩
    sizeSel := [], colorSel := [], mainImage := none, gallery := [] }

/-- A request whose URL parses but targets the wrong host and path shape. -/
def badReq : ScrapeReq :=
  { urlRaw := "https://example.com/foo", parsed := some ⟨"example.com", "/foo"⟩
    fetchOk := true, fetchStatus := 200, fetchStatusText := "OK", page := emptyPage }

/-- Structured data sufficient for a fully successful scrape. -/
def okSchema : SchemaData :=
  { hasType := true, name := "Ürün", description := some "Desc", brandName := some "Marka"
    manufacturer := none, offersPrice := some "100"
    imageContentUrl := some (.one "https://img.example/1.jpg"), hasVariant := [] }

/-- A page carrying `okSchema`. -/
def okPage : Page := { emptyPage with schemaParse := some (some okSchema) }

/-- A valid product-URL request against `okPage`. -/
def okReq : ScrapeReq :=
  { urlRaw := "https://www.trendyol.com/marka/urun-p-123"
    parsed := some ⟨"www.trendyol.com", "/marka/urun-p-123"⟩
    fetchOk := true, fetchStatus := 200, fetchStatusText := "OK", page := okPage }

/-- The record the handler assembles from `okReq` (checked by evaluation in
the C9 witness). -/
def okInsert : InsertProduct :=
  { url := "https://www.trendyol.com/marka/urun-p-123", title := "Ürün", description := "Desc"
    price := "115.00", basePrice := "100", images := ["https://img.example/1.jpg"]
    variants := ⟨[], []⟩, attributes := [], categories := ["Giyim"], tags := ["Giyim"]
    brand := "Marka" }

/-- `okInsert` with its assigned id. -/
def okProduct : Product := ⟨1, okInsert⟩

/-- A document whose first attribute strategy binds `Renk ↦ A` and whose
labelled-table strategy later rebinds `Renk ↦ B`. -/
def attrCounterDoc : AttrDoc := ⟨[[("Renk", "A")]], [[("Renk", "B")]], [], [], []⟩

/-- A product with 2 sizes, 2 colours and 3 images. -/
def c7Product : InsertProduct :=
  { url := "u", title := "Basic Tee", description := "d", price := "115.00", basePrice := "100"
    images := ["img1", "img2", "img3"], variants := ⟨["S", "M"], ["Red", "Blue"]⟩
    attributes := [("Kumaş", "Pamuk")], categories := ["Giyim"], tags := ["Giyim"], brand := "B" }

/-- A product whose second image is the empty string. -/
def c10Product : InsertProduct :=
  { url := "u", title := "T", description := "d", price := "1.15", basePrice := "1"
    images := ["imgA", ""], variants := ⟨["S"], ["Red", "Blue"]⟩
    attributes := [], categories := [], tags := [], brand := "B" }

/-! ## Theorems -/

/-- C1: the spec says `["Erkek Giyim", "Tişört"]` resolves to the "tişört"
mapping via exact-match-then-substring order, and the first loop\x27s own
comment says it looks for exact matches; but that loop\x27s predicate also
tests `category.includes(key)`, so the very first category "erkek giyim"
already matches the key "erkek" and the resolver returns the men\x27s-clothing
config, never reaching "tişört". -/
theorem C1_category_resolver_on_failing_input :
    getCategoryConfig ["Erkek Giyim", "Tişört"] = erkekConfig ∧ erkekConfig ≠ tisortConfig :=
  ⟨by decide, by decide⟩

/-- C6: the size pipeline on `["S","M","L","XSSMLXL"]` drops the composite
token (it contains "XS", "S" and "M"), deduplicates, and sorts by the
canonical order, giving exactly `["S","M","L"]`. -/
theorem C6_size_postprocess :
    processSizes ["S", "M", "L", "XSSMLXL"] = ["S", "M", "L"] := by decide

/-- C8 counterexample: for the scraped base price `0.100000000000000001` the
exact product with 1.15 is 0.11500000000000000115, which rounds to 2 decimal
places as "0.12" (no tie is involved), but the code\x27s binary64 computation
yields "0.11"; hence the derived price does not always equal
basePrice × 1.15 rounded to 2 decimals. -/
theorem C8_counterexample :
    priceFromBase "0.100000000000000001" = "0.11" ∧
    exactDerived "0.100000000000000001" = "0.12" ∧
    ("0.11" : String) ≠ "0.12" :=
  ⟨by decide, by decide, by decide⟩

/-- C8 (amended): the derived price is basePrice × 1.15 computed in binary64
and formatted by `toFixed(2)`, which can differ from exact decimal rounding;
for a structured-data base price of 100 the binary64 result and the exact
result are both exactly "115.00". -/
theorem C8_price_100_gives_115 :
    priceFromBase "100" = "115.00" ∧ exactDerived "100" = "115.00" :=
  ⟨by decide, by decide⟩

/-- C4 counterexample: on a document where no price strategy yields a price,
`scrapePrice` throws a plain `Error`, which is not a `TrendyolScrapingError`
and which `handleError` surfaces as the generic 500 unexpected-error
response — not as a server-class scraping error. -/
theorem C4_counterexample :
    scrapePrice ⟨none, none, none⟩ = .error (.generic "Fiyat bilgisi bulunamadı") ∧
    JsError.isScraping (.generic "Fiyat bilgisi bulunamadı") = false ∧
    handleError (.generic "Fiyat bilgisi bulunamadı") = (500, "Beklenmeyen bir hata oluştu") :=
  ⟨rfl, rfl, rfl⟩

/-- C4 (amended): whenever none of the three price strategies yields a price
(no parsed `offers.price`, no primary-selector element, no
secondary-selector element), `scrapePrice` raises the plain
`Error("Fiyat bilgisi bulunamadı")`, surfaced by `handleError` as the
generic 500 response rather than a scraping error. -/
theorem C4_no_price_generic_error (d : PriceDoc)
    (h1 : d.ldScript = none ∨ d.ldScript = some (some none))
    (h2 : d.prcDsc = none) (h3 : d.altPrice = none) :
    scrapePrice d = .error (.generic "Fiyat bilgisi bulunamadı") ∧
    handleError (.generic "Fiyat bilgisi bulunamadı") = (500, "Beklenmeyen bir hata oluştu") := by
  obtain ⟨a, b, c⟩ := d
  simp only at h1 h2 h3
  subst h2; subst h3
  rcases h1 with h1 | h1 <;> subst h1 <;> exact ⟨rfl, rfl⟩

/-- C4 witness: the amended theorem applied to the document whose first
script parses but has no `offers.price` and whose selectors match nothing. -/
theorem C4_witness :
    scrapePrice ⟨some (some none), none, none⟩ = .error (.generic "Fiyat bilgisi bulunamadı") ∧
    handleError (.generic "Fiyat bilgisi bulunamadı") = (500, "Beklenmeyen bir hata oluştu") :=
  C4_no_price_generic_error ⟨some (some none), none, none⟩ (Or.inr rfl) rfl rfl

/-- C3 counterexample: for a URL on the wrong host the handler rejects
before any fetch or cache write, but the `ZodError` matches none of the
`instanceof` branches of `handleError`, so the response is the generic
status 500 — which is not a client (4xx) status. -/
theorem C3_counterexample :
    scrapeStep MemStorage.init badReq =
      (MemStorage.init, .err 500 "Beklenmeyen bir hata oluştu", false) ∧
    ¬(400 ≤ 500 ∧ 500 < 500) :=
  ⟨by decide, by omega⟩

/-- C3 (amended): every request failing the URL refinement is rejected
before any network fetch (the fetch flag is false) and before any cache
write (the storage is returned unchanged), but it is surfaced as the
generic 500 unexpected-error response, not as a 4xx client error. -/
theorem C3_invalid_url_rejected (st : MemStorage) (r : ScrapeReq)
    (h : urlSchemaOk r.parsed = false) :
    scrapeStep st r = (st, .err 500 "Beklenmeyen bir hata oluştu", false) := by
  unfold scrapeStep
  simp [h, respondErr, handleError]

/-- C3 witness: the amended theorem applied to the wrong-host request. -/
theorem C3_witness :
    scrapeStep ⟨[], 5⟩ badReq = (⟨[], 5⟩, .err 500 "Beklenmeyen bir hata oluştu", false) :=
  C3_invalid_url_rejected ⟨[], 5⟩ badReq (by decide)

/-- C2 counterexample: strategy 1 (structured data) binds `Renk ↦ "A"`, yet
the final mapping holds `Renk ↦ "B"`, written by strategy 2 (the labelled
table container), so a later strategy does overwrite an earlier binding. -/
theorem C2_counterexample :
    lookupA (attrStrat1 [] attrCounterDoc.ldProps) "Renk" = some "A" ∧
    lookupA (scrapeProductAttributes attrCounterDoc) "Renk" = some "B" ∧
    ("A" : String) ≠ "B" :=
  ⟨rfl, by decide, by decide⟩

/-- C5 counterexample: the first selector yields the non-empty text node
"XSSMLXL", whose tokens are all dropped by the composite filter; the loop
does not stop there but falls through, and the result comes from the second
selector — so "once a strategy yields non-empty text nodes no later
strategy is consulted" is false. -/
theorem C5_counterexample :
    ((["XSSMLXL"] : List String).filter fun s => s != "") ≠ [] ∧
    processSizes ["XSSMLXL"] = [] ∧
    sizesScan [["XSSMLXL"], ["M"], [], []] = ["M"] ∧
    sizesScan [["XSSMLXL"], [], [], []] = [] :=
  ⟨by decide, by decide, by decide, by decide⟩

/-- Invariants carried through a left fold. -/
theorem foldl_preserve {α β : Type} (P : β → Prop) (f : β → α → β)
    (hstep : ∀ b a, P b → P (f b a)) (l : List α) : ∀ b, P b → P (l.foldl f b) := by
  induction l with
  | nil => intro b hb; exact hb
  | cons a l ih => intro b hb; exact ih (f b a) (hstep b a hb)

/-- Lookup after an ordered-association-list assignment. -/
theorem lookupA_setA (m : List (String × String)) (k2 v2 k : String) :
    lookupA (setA m k2 v2) k = if k2 == k then some v2 else lookupA m k := by
  induction m with
  | nil => simp [setA, lookupA]
  | cons kv rest ih =>
    obtain ⟨k1, v1⟩ := kv
    simp only [setA, lookupA, beq_iff_eq]
    split_ifs with h1 h2 <;> simp_all [lookupA, beq_iff_eq]

/-- A key bound to a non-empty value is truthy. -/
theorem truthyAt_of_lookup {m : List (String × String)} {k v : String}
    (h : lookupA m k = some v) (hv : v ≠ "") : truthyAt m k = true := by
  simp [truthyAt, h, hv]

/-- The generic-selector strategy never rebinds a key that already holds a
non-empty value (its guard tests `!attributes[label]`). -/
theorem attrStrat3_preserve (attrs : List (String × String)) (sels : List (List AttrElem))
    (k v : String) (hv : v ≠ "") (h : lookupA attrs k = some v) :
    lookupA (attrStrat3 attrs sels) k = some v := by
  unfold attrStrat3
  refine foldl_preserve (fun m => lookupA m k = some v) _ ?_ sels attrs h
  intro m elems hm
  refine foldl_preserve (fun m => lookupA m k = some v) _ ?_ elems m hm
  intro m2 e hm2
  dsimp only
  cases hlv : (elemLabelValue e).2 with
  | none => exact hm2
  | some v2 =>
    dsimp only
    by_cases hg : ((elemLabelValue e).1 != "" && v2 != "" && !truthyAt m2 (elemLabelValue e).1) = true
    · rw [if_pos hg, lookupA_setA]
      have hne : (elemLabelValue e).1 ≠ k := by
        intro hEq
        have ht : truthyAt m2 (elemLabelValue e).1 = true := by
          rw [hEq]; exact truthyAt_of_lookup hm2 hv
        simp [ht] at hg
      simp [hne, hm2]
    · rw [if_neg hg]; exact hm2

/-- The targeted canonical-name strategy never rebinds a key that already
holds a non-empty value (its guard tests `!attributes[key]` before the
alternate-label loop). -/
theorem attrStrat4_preserve (attrs : List (String × String)) (sv : List (String × List String))
    (k v : String) (hv : v ≠ "") (h : lookupA attrs k = some v) :
    lookupA (attrStrat4 attrs sv) k = some v := by
  unfold attrStrat4
  refine foldl_preserve (fun m => lookupA m k = some v) _ ?_ specialAttributes attrs h
  intro m kv hm
  dsimp only
  by_cases hg : truthyAt m kv.1 = true
  · rw [if_pos hg]; exact hm
  · rw [if_neg hg]
    have hkk : kv.1 ≠ k := by
      intro hEq; apply hg; rw [hEq]; exact truthyAt_of_lookup hm hv
    refine foldl_preserve (fun m => lookupA m k = some v) _ ?_ kv.2 m hm
    intro m2 alt hm2
    refine foldl_preserve (fun m => lookupA m k = some v) _ ?_ (lookupVals sv alt) m2 hm2
    intro m3 v3 hm3
    by_cases hv3 : (v3 != "") = true
    · rw [if_pos hv3, lookupA_setA]
      simp [hkk, hm3]
    · rw [if_neg hv3]; exact hm3

/-- C2 (amended): the claimed first-write-wins discipline holds only for the
generic selector patterns (strategy 3) and the targeted canonical-name
lookups (strategy 4): a key already bound to a non-empty value is never
changed by them.  The labelled-table strategy (2) and the grouped-attributes
strategy (5) assign unconditionally and can overwrite earlier strategies\x27
bindings (see the counterexample). -/
theorem C2_first_write_wins_strat3_strat4 (attrs : List (String × String))
    (sels : List (List AttrElem)) (sv : List (String × List String)) (k v : String)
    (hv : v ≠ "") (h : lookupA attrs k = some v) :
    lookupA (attrStrat4 (attrStrat3 attrs sels) sv) k = some v :=
  attrStrat4_preserve _ sv k v hv (attrStrat3_preserve attrs sels k v hv h)

/-- C2 witness: a `Renk ↦ A` binding survives a generic-selector element
"Renk: Z" and a targeted lookup offering "Q". -/
theorem C2_witness :
    lookupA (attrStrat4 (attrStrat3 [("Renk", "A")] [[.plain "Renk: Z"]]) [("Renk", ["Q"])])
      "Renk" = some "A" :=
  C2_first_write_wins_strat3_strat4 [("Renk", "A")] [[.plain "Renk: Z"]] [("Renk", ["Q"])]
    "Renk" "A" (by decide) rfl

/-- C5 (amended): the size loop stops at the first selector whose tokens
survive the composite filter with a non-empty processed result; a selector
that yields text nodes which are all filtered away (or none at all) is
skipped and later selectors are consulted. -/
theorem C5_first_surviving_strategy_wins (ls : List (List String)) (i : Nat)
    (hprev : ∀ j, j < i → processSizes ((ls.getD j []).filter fun s => s != "") = [])
    (hne : processSizes ((ls.getD i []).filter fun s => s != "") ≠ []) :
    sizesScan ls = processSizes ((ls.getD i []).filter fun s => s != "") := by
  induction ls generalizing i with
  | nil => exfalso; apply hne; cases i <;> rfl
  | cons l rest ih =>
    cases i with
    | zero =>
      rw [List.getD_cons_zero] at hne ⊢
      simp only [sizesScan]
      have hlfne : (l.filter fun s => s != "") ≠ [] := by
        intro h; apply hne; rw [h]; rfl
      have hlen : (l.filter fun s => s != "").length > 0 := List.length_pos.mpr hlfne
      rw [if_pos hlen]
      have hu : (processSizes (l.filter fun s => s != "")).length > 0 :=
        List.length_pos.mpr hne
      rw [if_pos hu]
    | succ j =>
      rw [List.getD_cons_succ] at hne
      have h0 : processSizes (l.filter fun s => s != "") = [] := by
        have h00 := hprev 0 (Nat.succ_pos j)
        rwa [List.getD_cons_zero] at h00
      have hskip : sizesScan (l :: rest) = sizesScan rest := by
        simp only [sizesScan]
        by_cases hlen : (l.filter fun s => s != "").length > 0
        · rw [if_pos hlen, h0]
          simp
        · rw [if_neg hlen]
      rw [hskip]
      refine ih j ?_ hne
      intro j2 hj2
      have hj3 := hprev (j2 + 1) (Nat.succ_lt_succ hj2)
      rwa [List.getD_cons_succ] at hj3

/-- C5 witness: with the first selector yielding only the composite token
and the second yielding "M", the loop returns the second selector\x27s
processed result. -/
theorem C5_witness :
    sizesScan [["XSSMLXL"], ["M"], [], []] =
      processSizes ((["M"] : List String).filter fun s => s != "") :=
  C5_first_surviving_strategy_wins [["XSSMLXL"], ["M"], [], []] 1
    (by intro j hj
        have hj0 : j = 0 := by omega
        subst hj0
        decide)
    (by decide)

/-- C7: a product with exactly 2 sizes, 2 colours and 3 images exports as
exactly three rows — the main row, one extra-size row and one extra-colour
row — and the extra-colour row\x27s Image Position is the string "2". -/
theorem C7_export_rows (p : InsertProduct)
    (hs : p.variants.sizes.length = 2) (hc : p.variants.colors.length = 2)
    (hi : p.images.length = 3) :
    exportToShopify p = [mainRow p, mkSizeRow p 1, mkColorRow p 1] ∧
      (mkColorRow p 1).imagePosition = "2" := by
  refine ⟨?_, rfl⟩
  simp [exportToShopify, hs, hc, List.range_succ]

/-- C7 witness: the theorem applied to a concrete 2-size/2-colour/3-image
product. -/
theorem C7_witness :
    exportToShopify c7Product = [mainRow c7Product, mkSizeRow c7Product 1, mkColorRow c7Product 1] ∧
      (mkColorRow c7Product 1).imagePosition = "2" :=
  C7_export_rows c7Product rfl rfl rfl

/-- The record `assemble` produces is keyed by the requested URL. -/
theorem assemble_url (url : String) (pg : Page) (ip : InsertProduct)
    (h : assemble url pg = .ok ip) : ip.url = url := by
  unfold assemble at h
  dsimp only at h
  repeat' split at h
  all_goals try exact (Except.noConfusion h)
  all_goals (injection h with h2; subst h2; rfl)

/-- Lookup after a `Map.set`. -/
theorem mapGet_mapSet (m : List (String × Product)) (k2 : String) (v2 : Product) (k : String) :
    mapGet (mapSet m k2 v2) k = if k2 == k then some v2 else mapGet m k := by
  induction m with
  | nil => simp [mapSet, mapGet]
  | cons kv rest ih =>
    obtain ⟨k1, v1⟩ := kv
    simp only [mapSet, mapGet, beq_iff_eq]
    split_ifs with h1 h2 <;> simp_all [mapGet, beq_iff_eq]

/-- No handler execution removes or replaces an existing cache entry: the
only write is a save under a URL that just missed the cache. -/
theorem scrapeStep_preserves_cache (st : MemStorage) (r : ScrapeReq) (u : String) (p : Product)
    (h : getProduct st u = some p) : getProduct (scrapeStep st r).1 u = some p := by
  unfold scrapeStep
  split
  · exact h
  · split
    · exact h
    · split
      · exact h
      · split
        · exact h
        · next hmiss _ _ ip hok =>
          dsimp only [saveProduct, getProduct] at *
          rw [mapGet_mapSet]
          have hurl : ip.url = r.urlRaw := assemble_url r.urlRaw r.page ip hok
          by_cases hk : ip.url == u
          · exfalso
            rw [beq_iff_eq] at hk
            rw [hurl] at hk
            subst hk
            rw [h] at hmiss
            exact Option.noConfusion hmiss
          · simp only [hk, if_false]
            exact h

/-- Cache entries survive any sequence of handler executions. -/
theorem runList_preserves_cache (rs : List ScrapeReq) (st : MemStorage) (u : String) (p : Product)
    (h : getProduct st u = some p) : getProduct (runList st rs) u = some p := by
  induction rs generalizing st with
  | nil => exact h
  | cons r rest ih => exact ih (scrapeStep st r).1 (scrapeStep_preserves_cache st r u p h)

/-- A valid-URL request whose URL is cached returns the cached record
without fetching and without touching the storage (the cache lookup precedes
the fetch and short-circuits). -/
theorem scrapeStep_cache_hit (st : MemStorage) (r : ScrapeReq) (p : Product)
    (hv : urlSchemaOk r.parsed = true) (h : getProduct st r.urlRaw = some p) :
    scrapeStep st r = (st, .ok p, false) := by
  unfold scrapeStep
  simp [hv, h]

/-- After any successful scrape response, the returned record is stored
under the requested URL (and the URL was valid). -/
theorem scrapeStep_ok_cached (st : MemStorage) (r : ScrapeReq) (st2 : MemStorage)
    (p : Product) (f : Bool) (h : scrapeStep st r = (st2, .ok p, f)) :
    urlSchemaOk r.parsed = true ∧ getProduct st2 r.urlRaw = some p := by
  unfold scrapeStep at h
  split at h
  · next hv => simp [respondErr, handleError] at h
  · next hv =>
    have hvalid : urlSchemaOk r.parsed = true := by simpa using hv
    refine ⟨hvalid, ?_⟩
    split at h
    · next existing hhit =>
      simp only [Prod.mk.injEq] at h
      obtain ⟨h1, h2, h3⟩ := h
      cases h2
      subst h1
      exact hhit
    · next hmiss =>
      split at h
      · simp [respondErr, handleError] at h
      · split at h
        · simp [respondErr, handleError] at h
        · next ip hok =>
          dsimp only [saveProduct] at h
          simp only [Prod.mk.injEq] at h
          obtain ⟨h1, h2, h3⟩ := h
          cases h2
          subst h1
          dsimp only [getProduct]
          rw [mapGet_mapSet]
          have hurl : ip.url = r.urlRaw := assemble_url r.urlRaw r.page ip hok
          simp [hurl]

/-- C9: once a scrape of a URL has succeeded, any later request for the same
URL — after any interleaved sequence of other requests — returns exactly the
first record, performs no network fetch, and leaves the storage unchanged:
the cache lookup precedes the fetch, short-circuits on a hit, and entries
are never updated or evicted. -/
theorem C9_repeat_scrape_cache_hit (st st1 : MemStorage) (r r2 : ScrapeReq) (p : Product)
    (f : Bool) (rs : List ScrapeReq) (h : scrapeStep st r = (st1, .ok p, f))
    (hu : r2.urlRaw = r.urlRaw) (hp : r2.parsed = r.parsed) :
    scrapeStep (runList st1 rs) r2 = (runList st1 rs, .ok p, false) := by
  obtain ⟨hv, hc⟩ := scrapeStep_ok_cached st r st1 p f h
  refine scrapeStep_cache_hit (runList st1 rs) r2 p ?_ ?_
  · rw [hp]; exact hv
  · rw [hu]; exact runList_preserves_cache rs st1 r.urlRaw p hc

/-- C9 witness: a successful scrape of `okReq` from the fresh storage, an
interleaved unrelated request, then the same request again, which hits the
cache. -/
theorem C9_witness :
    scrapeStep
        (runList ⟨[("https://www.trendyol.com/marka/urun-p-123", okProduct)], 2⟩ [badReq]) okReq =
      (runList ⟨[("https://www.trendyol.com/marka/urun-p-123", okProduct)], 2⟩ [badReq],
        .ok okProduct, false) :=
  C9_repeat_scrape_cache_hit MemStorage.init
    ⟨[("https://www.trendyol.com/marka/urun-p-123", okProduct)], 2⟩ okReq okReq okProduct true
    [badReq] (by decide) rfl rfl

/-- C10 counterexample: for a product whose image list holds the empty
string at the extra colour\x27s index (which is in range), the extra-colour
row\x27s Image Src is the first image, not the image at that index — the `||`
fallback also fires on an in-range empty entry, not only out of range. -/
theorem C10_counterexample :
    1 < c10Product.images.length ∧
    c10Product.images.getD 1 "X" = "" ∧
    (mkColorRow c10Product 1).imageSrc = "imgA" ∧
    ("imgA" : String) ≠ "" :=
  ⟨by decide, by decide, by decide, by decide⟩

/-- C10 (amended): for a product with at least one size and more than one
colour, every extra-colour row inherits the main row\x27s Option1 Name
("Size") and Option1 Value (the first size) unchanged, its Image Src and
Variant Image agree and are the image at the colour\x27s index, falling back
to the first image when that index is out of range or the entry there is the
empty string; extra-size rows render all image fields empty. -/
theorem C10_color_rows (p : InsertProduct)
    (hs : 1 ≤ p.variants.sizes.length) (hc : 2 ≤ p.variants.colors.length) :
    (∀ i, i ∈ (List.range p.variants.colors.length).drop 1 →
        ((mkColorRow p i).option1Name = (mainRow p).option1Name ∧
          (mainRow p).option1Name = "Size") ∧
        ((mkColorRow p i).option1Value = (mainRow p).option1Value ∧
          (mainRow p).option1Value = p.variants.sizes.getD 0 "") ∧
        (mkColorRow p i).variantImage = (mkColorRow p i).imageSrc ∧
        (p.images.getD i "" ≠ "" → (mkColorRow p i).imageSrc = p.images.getD i "") ∧
        (p.images.getD i "" = "" → (mkColorRow p i).imageSrc = p.images.getD 0 "")) ∧
    (∀ i, i ∈ (List.range p.variants.sizes.length).drop 1 →
        (mkSizeRow p i).imageSrc = "" ∧ (mkSizeRow p i).imagePosition = "" ∧
        (mkSizeRow p i).imageAlt = "" ∧ (mkSizeRow p i).variantImage = "") := by
  have hpos : p.variants.sizes.length > 0 := by omega
  constructor
  · intro i _
    refine ⟨⟨rfl, ?_⟩, ⟨rfl, rfl⟩, rfl, ?_, ?_⟩
    · simp [mainRow, hpos]
    · intro ha
      show jsIndexOr p.images i = p.images.getD i ""
      simp only [jsIndexOr]
      rw [if_pos (by simpa using ha)]
    · intro ha
      show jsIndexOr p.images i = p.images.getD 0 ""
      simp only [jsIndexOr]
      rw [if_neg (by rw [ha]; decide)]
  · intro i _
    exact ⟨rfl, rfl, rfl, rfl⟩

/-- C10 witness: the amended theorem applied to the concrete
2-size/2-colour/3-image product. -/
theorem C10_witness :
    (∀ i, i ∈ (List.range c7Product.variants.colors.length).drop 1 →
        ((mkColorRow c7Product i).option1Name = (mainRow c7Product).option1Name ∧
          (mainRow c7Product).option1Name = "Size") ∧
        ((mkColorRow c7Product i).option1Value = (mainRow c7Product).option1Value ∧
          (mainRow c7Product).option1Value = c7Product.variants.sizes.getD 0 "") ∧
        (mkColorRow c7Product i).variantImage = (mkColorRow c7Product i).imageSrc ∧
        (c7Product.images.getD i "" ≠ "" →
          (mkColorRow c7Product i).imageSrc = c7Product.images.getD i "") ∧
        (c7Product.images.getD i "" = "" →
          (mkColorRow c7Product i).imageSrc = c7Product.images.getD 0 "")) ∧
    (∀ i, i ∈ (List.range c7Product.variants.sizes.length).drop 1 →
        (mkSizeRow c7Product i).imageSrc = "" ∧ (mkSizeRow c7Product i).imagePosition = "" ∧
        (mkSizeRow c7Product i).imageAlt = "" ∧ (mkSizeRow c7Product i).variantImage = "") :=
  C10_color_rows c7Product (by decide) (by decide)

end TrendyFetch
